import Mathlib

/-!
Shallow embedding of the decision engine of the IC-UNIFESP-IA chatbot
(`src/backend`): the small-talk classifier, the domain-relevance heuristic,
the RAG context assembler, the specialist router, and the `/ask` and
`/start` handlers.  Pure Python string manipulation is translated to
executable functions over `List Char`; external collaborators (the FAISS
retriever, the Tavily web search, the Gemini language model, the Redis
session store) are passed in as explicit outcome parameters, with raised
exceptions modelled by `Except`.  Similarity scores (Python floats) are
modelled as rationals: every comparison the code performs on them is an
order comparison against the constant threshold, which is exact at the
values of interest.
-/

/-- Whitespace test used by Python's `str.strip()` / `str.split()` / `\s`,
restricted to the ASCII whitespace characters (the only ones this
repository's vocabulary can produce). -/
def isSpaceC (c : Char) : Bool :=
  c == ' ' || c == '\t' || c == '\n' || c == '\r' || c == '\x0b' || c == '\x0c'

/-- Python `str.lower()` on a single character, restricted to the ASCII
letters and the accented Latin letters occurring in this repository's
vocabulary; every other character is returned unchanged. -/
def pyLowerChar : Char → Char
  | 'A' => 'a' | 'B' => 'b' | 'C' => 'c' | 'D' => 'd' | 'E' => 'e'
  | 'F' => 'f' | 'G' => 'g' | 'H' => 'h' | 'I' => 'i' | 'J' => 'j'
  | 'K' => 'k' | 'L' => 'l' | 'M' => 'm' | 'N' => 'n' | 'O' => 'o'
  | 'P' => 'p' | 'Q' => 'q' | 'R' => 'r' | 'S' => 's' | 'T' => 't'
  | 'U' => 'u' | 'V' => 'v' | 'W' => 'w' | 'X' => 'x' | 'Y' => 'y'
  | 'Z' => 'z'
  | 'Á' => 'á' | 'À' => 'à' | 'Â' => 'â' | 'Ã' => 'ã'
  | 'É' => 'é' | 'Ê' => 'ê' | 'Í' => 'í'
  | 'Ó' => 'ó' | 'Ô' => 'ô' | 'Õ' => 'õ'
  | 'Ú' => 'ú' | 'Ü' => 'ü' | 'Ç' => 'ç'
  | c => c

/-- Python `str.lower()` over the character list of a string. -/
def lowerL (l : List Char) : List Char := l.map pyLowerChar

/-- Drop leading whitespace (the front half of Python `str.strip()`). -/
def ldrop (l : List Char) : List Char := l.dropWhile isSpaceC

/-- Drop trailing whitespace (the back half of Python `str.strip()`). -/
def rdropC (l : List Char) : List Char := (l.reverse.dropWhile isSpaceC).reverse

/-- Python `str.strip()` over the character list of a string. -/
def stripL (l : List Char) : List Char := rdropC (ldrop l)

/-- Python `str.lower()` at the `String` level. -/
def pyLower (s : String) : String := ⟨lowerL s.data⟩

/-- Python `str.strip()` at the `String` level. -/
def pyStrip (s : String) : String := ⟨stripL s.data⟩

/-- Helper for `countTokens`: the state records whether the scan is
currently inside a token. -/
def countTokensGo : Bool → List Char → Nat
  | _, [] => 0
  | inTok, c :: t =>
    if isSpaceC c then countTokensGo false t
    else (if inTok then 0 else 1) + countTokensGo true t

/-- `len(q.split())` in Python: the number of maximal whitespace-free runs. -/
def countTokens (l : List Char) : Nat := countTokensGo false l

/-- Match the literal `needle` at the head of the list, returning the
remainder on success (`None` mirrors a failed match). -/
def dropLit : List Char → List Char → Option (List Char)
  | [], s => some s
  | _ :: _, [] => none
  | a :: as, b :: bs => if a = b then dropLit as bs else none

/-- Python substring test `needle in hay` (`dropLit` tried at every
position). -/
def subListOf (needle : List Char) : List Char → Bool
  | [] => (dropLit needle []).isSome
  | c :: t => (dropLit needle (c :: t)).isSome || subListOf needle t

/-- Python `sub in s` at the `String` level. -/
def subStr (sub s : String) : Bool := subListOf sub.data s.data

/-- Python regex `\w` (word character), restricted to ASCII alphanumerics,
underscore and the accented Latin letters of this repository's
vocabulary. -/
def isWordChar (c : Char) : Bool :=
  (decide ('a' ≤ c) && decide (c ≤ 'z')) ||
  (decide ('A' ≤ c) && decide (c ≤ 'Z')) ||
  (decide ('0' ≤ c) && decide (c ≤ '9')) ||
  c == '_' ||
  ['á', 'à', 'â', 'ã', 'é', 'ê', 'í', 'ó', 'ô', 'õ', 'ú', 'ü', 'ç',
   'Á', 'À', 'Â', 'Ã', 'É', 'Ê', 'Í', 'Ó', 'Ô', 'Õ', 'Ú', 'Ü', 'Ç'].contains c

/-- Regex `\b` placed after a literal that ends in a word character:
satisfied at end of string or before a non-word character. -/
def wordEndOK : List Char → Bool
  | [] => true
  | c :: _ => !(isWordChar c)

/-- Match a literal at the current position, optionally requiring a
trailing word boundary (the literal always ends in a word character in
the patterns below). -/
def litHereWB (lit : List Char) (withEnd : Bool) (s : List Char) : Bool :=
  match dropLit lit s with
  | none => false
  | some rest => !withEnd || wordEndOK rest

/-- Search for `\blit` (with optional trailing `\b`) anywhere in the text:
the accumulator records whether the previous character was a word
character (start of string counts as a boundary).  Every literal in the
small-talk patterns starts with a word character, so the left boundary
holds exactly when the previous character is not a word character. -/
def floatingSearch (lit : List Char) (withEnd : Bool) : Bool → List Char → Bool
  | prevWord, [] => !prevWord && litHereWB lit withEnd []
  | prevWord, c :: t =>
    (!prevWord && litHereWB lit withEnd (c :: t)) ||
    floatingSearch lit withEnd (isWordChar c) t

/-- Search for `^\s*(alt1|alt2|...)\b`: skip leading whitespace, then match
one of the alternatives at that position with a trailing word boundary. -/
def anchoredSearch (alts : List (List Char)) (s : List Char) : Bool :=
  alts.any (fun lit => litHereWB lit true (s.dropWhile isSpaceC))

/-- A compiled small-talk pattern: either anchored (`^\s*alt\b`, character
classes expanded into one alternative per choice) or floating
(`\balt`..., each alternative paired with whether it carries a trailing
`\b`). -/
inductive Pat where
  | anchored (alts : List String)
  | floating (alts : List (String × Bool))

/-- `re.search(pat, s)` as a Boolean, for the compiled pattern forms. -/
def reSearchL (p : Pat) (s : List Char) : Bool :=
  match p with
  | .anchored alts => anchoredSearch (alts.map String.data) s
  | .floating alts => alts.any (fun ab => floatingSearch ab.1.data ab.2 false s)

/-- `SMALL_TALK_PATTERNS` from `src/backend/config.py`, each Python regex
compiled to the `Pat` form (character classes such as `ol[áa]` and
alternations such as `\bbeleza\b|\bblz\b|\bsuave\b` are expanded into
alternative literals). -/
def SMALL_TALK_PATTERNS : List Pat := [
  .anchored ["oi"],
  .anchored ["olá", "ola"],
  .anchored ["ea", "ei"],
  .floating [("tudo bem", true)],
  .floating [("tudo certo", true)],
  .floating [("beleza", true), ("blz", true), ("suave", true)],
  .floating [("opa", true), ("salve", true)],
  .floating [("bom dia", true), ("boa tarde", true), ("boa noite", true)],
  .floating [("obrigad", false)],
  .floating [("valeu", true)],
  .floating [("tchau", true), ("até logo", true), ("ate logo", true), ("até", true), ("ate", true)],
  .floating [("como vai", true)]
]

/-- The normalized character list `((query or "").lower().strip())` that
`is_small_talk` computes internally. -/
def normQL (s : String) : List Char := stripL (lowerL s.data)

/-- `is_small_talk` from `src/backend/utils/small_talk.py`: lowercase and
strip the query; if it has at most 5 whitespace-separated tokens, report
whether some small-talk pattern matches; otherwise false. -/
def is_small_talk (query : String) : Bool :=
  let q := normQL query
  if countTokens q ≤ 5 then SMALL_TALK_PATTERNS.any (fun pat => reSearchL pat q)
  else false

/-- `FAISS_SCORE_THRESHOLD` from `src/backend/config.py` (similarity
threshold `0.35`, lower score = better; the float is modelled as the
exact rational 35/100). -/
def FAISS_SCORE_THRESHOLD : ℚ := mkRat 35 100

/-- `DOMINIO_KWS` from `src/backend/config.py`. -/
def DOMINIO_KWS : List String := [
  "parcelamento do solo", "loteamento", "desmembramento", "regularização fundiária",
  "fiscalização", "zoneamento", "outorga", "uso do solo", "iptu", "licenciamento",
  "auto de infração", "improbidade", "plano diretor", "lei complementar", "código urbanístico",
  "geoprocessamento", "croqui", "geo", "snirf", "sigef", "sei", "processo administrativo"]

/-- `any(kw in ql for kw in DOMINIO_KWS)` where `ql = q.lower()`
(`has_domain_kw` inside `should_use_database`). -/
def has_domain_kw (q : String) : Bool :=
  DOMINIO_KWS.any (fun kw => subStr kw (pyLower q))

/-- Python `min(iterable, default=d)`: a left fold of `min`, or the
default on an empty list. -/
def listMin (l : List ℚ) (d : ℚ) : ℚ :=
  match l with
  | [] => d
  | x :: xs => xs.foldl min x

/-- `should_use_database` from `src/backend/utils/heuristics.py`.  The
retrieval side effect (`vectorstore.similarity_search_with_score(q, k=3)`,
including the cache lookup and index load it is guarded with) is passed in
as `retrieval`: `Except.ok scores` is the list of returned scores,
`Except.error ()` is any raised exception, which the function's
`try/except` converts into the keyword-only decision. -/
def should_use_database (retrieval : Except Unit (List ℚ)) (query : String) : Bool :=
  let q := pyStrip query
  if is_small_talk q then false
  else
    match retrieval with
    | Except.ok scored =>
      has_domain_kw q || decide (listMin scored 1 ≤ FAISS_SCORE_THRESHOLD)
    | Except.error _ => has_domain_kw q

/-- The three user profiles (`Perfil` in `src/backend/models.py`). -/
inductive Perfil where
  | cidadao
  | servidor_publico
  | interesse_geral
deriving DecidableEq, Repr

/-- A source attribution accumulated by `montar_contexto_rag`
(`fontes` entries: `{"tipo": "documento", ...}` for retrieved passages,
`{"tipo": "web", ...}` for Tavily results, either the unstructured-string
form or the structured title/url form). -/
inductive Fonte where
  | documento (metadata : String)
  | webStr (conteudo : String)
  | webItem (title : String) (url : String)
deriving DecidableEq, Repr

/-- A document returned by the retriever (`langchain` `Document`):
`page_content` plus opaque metadata. -/
structure Doc where
  page_content : String
  metadata : String
deriving DecidableEq, Repr

/-- One structured Tavily result (`title` / `url` / `content`, with
Python's `r.get(...) or ""` already applied). -/
structure WebEntry where
  title : String
  url : String
  content : String
deriving DecidableEq, Repr

/-- Outcome of `tavily.run(query)`: an unstructured string, a structured
list, or a raised exception (which `montar_contexto_rag` catches and
logs). -/
inductive TavilyResult where
  | rstr (s : String)
  | rlist (rs : List WebEntry)
  | rfail
deriving DecidableEq, Repr

/-- Python `"sep".join(parts)`. -/
def joinSep (sep : String) : List String → String
  | [] => ""
  | [x] => x
  | x :: y :: t => x ++ sep ++ joinSep sep (y :: t)

/-- Formatting of one structured web result inside the `[WEB]` block of
`montar_contexto_rag`. -/
def fmtWebEntry (r : WebEntry) : String :=
  "Título: " ++ r.title ++ "\nURL: " ++ r.url ++ "\nConteúdo: " ++ r.content

/-- `montar_contexto_rag` from `src/backend/utils/agents.py`.  The
retriever invocation is passed in as `docs` (its returned documents); the
availability conjunction `TAVILY_AVAILABLE and os.getenv("TAVILY_API_KEY")`
is collapsed into `tavilyOk`; the web call's outcome is `tres`.  Returns
`(contexto, fontes)`. -/
def montar_contexto_rag (docs : List Doc) (perfil : Perfil) (tavilyOk : Bool)
    (tres : TavilyResult) : String × List Fonte :=
  let partes0 := docs.map (fun d => d.page_content)
  let fontes0 := docs.map (fun d => Fonte.documento d.metadata)
  let webPF : List String × List Fonte :=
    if perfil = Perfil.interesse_geral ∧ tavilyOk = true then
      match tres with
      | TavilyResult.rstr s => (["\n[WEB] " ++ s], [Fonte.webStr s])
      | TavilyResult.rlist rs =>
        (["\n[WEB]\n" ++ joinSep "\n\n" (rs.map fmtWebEntry)],
         rs.map (fun r => Fonte.webItem r.title r.url))
      | TavilyResult.rfail => ([], [])
    else ([], [])
  let partes := partes0 ++ webPF.1
  let contexto := if partes.isEmpty then "Nenhum contexto encontrado." else joinSep "\n\n---\n\n" partes
  (contexto, fontes0 ++ webPF.2)

/-- Role signal of the legal specialist scanned in the lowered model
output (`coordenar`, first branch). -/
def sinalJuridico (al : String) : Bool :=
  subStr "1_juridico" al || subStr "jurídico" al || subStr "juridico" al

/-- Role signal of the data-systems specialist scanned in the lowered
model output (`coordenar`, second branch). -/
def sinalDados (al : String) : Bool :=
  subStr "3_dados_sistemas" al || subStr "dados" al || subStr "sistemas" al

/-- Role signal of the operational specialist scanned in the lowered model
output (`coordenar`, third branch). -/
def sinalOperacional (al : String) : Bool :=
  subStr "2_operacional" al || subStr "operacional" al || subStr "modelo" al

/-- Legal-domain keywords of the second-tier fallback in `coordenar`
(scanned in the lowered original query; the duplicated `"sanção"` of the
source is kept). -/
def COORD_LEGAL_KWS : List String :=
  ["lei", "jurisprud", "art.", "artigo", "sanção", "sanção", "crime",
   "improbidade", "competência", "competencia"]

/-- Data/systems keywords of the second-tier fallback in `coordenar`. -/
def COORD_DADOS_KWS : List String :=
  ["sistema", "base", "dados", "cnpj", "cpf", "geosampa", "sigef", "snci",
   "snirf", "sei", "sei!"]

/-- Second-tier fallback of `coordenar`: keyword rules over the lowered
original query, defaulting to the operational agent. -/
def queryKwFallback (query : String) : String :=
  let kw := pyLower query
  if COORD_LEGAL_KWS.any (fun w => subStr w kw) then "1_juridico"
  else if COORD_DADOS_KWS.any (fun w => subStr w kw) then "3_dados_sistemas"
  else "2_operacional"

/-- Agent-selection heuristic of `coordenar`: scan the lowered model
output for role tags and synonyms (legal, then data-systems, then
operational), falling back to the query keyword rules. -/
def choose_agent (analise query : String) : String :=
  let al := pyLower analise
  if sinalJuridico al then "1_juridico"
  else if sinalDados al then "3_dados_sistemas"
  else if sinalOperacional al then "2_operacional"
  else queryKwFallback query

/-- The dictionary returned by `coordenar`. -/
structure Coordenacao where
  analise : String
  agente_escolhido : String
  contexto : String
  fontes : List Fonte
deriving DecidableEq, Repr

/-- `coordenar` from `src/backend/utils/agents.py`: build the RAG context,
invoke the language model on the coordination prompt, and classify.
`llmOut` is the outcome of `llm.invoke(text).content` (`Except.error ()`
when `_get_llm` or the invocation raises — the exception then propagates
out of `coordenar`, uncaught). -/
def coordenar (docs : List Doc) (perfil : Perfil) (tavilyOk : Bool)
    (tres : TavilyResult) (llmOut : Except Unit String) (query : String) :
    Except Unit Coordenacao :=
  let cf := montar_contexto_rag docs perfil tavilyOk tres
  match llmOut with
  | Except.error e => Except.error e
  | Except.ok analise =>
    Except.ok { analise := analise, agente_escolhido := choose_agent analise query,
                contexto := cf.1, fontes := cf.2 }

/-- One conversation turn (`{"role": ..., "content": ...}` in the stored
history). -/
structure Turn where
  role : String
  content : String
deriving DecidableEq, Repr

/-- `QueryRequest` from `src/backend/models.py`. -/
structure QueryRequest where
  session_id : Option String
  query : String
  perfil : Option Perfil
deriving DecidableEq, Repr

/-- `StartRequest` from `src/backend/models.py`; the profile is kept as a
raw string because `start_session` re-validates it against the three
allowed values. -/
structure StartRequest where
  session_id : String
  perfil : String
deriving DecidableEq, Repr

/-- `QueryResponse` from `src/backend/models.py`. -/
structure QueryResponse where
  answer : String
  fonte_resumo : String
  agente_acionado : String
  source_documents : List Fonte
deriving DecidableEq, Repr

/-- The values readable from the Redis session store for the request's
session (`session:{id}:perfil` and `session:{id}:history`, the latter
already JSON-decoded). -/
structure StoreData where
  stored_perfil : Option Perfil
  stored_history : Option (List Turn)
deriving DecidableEq, Repr

/-- State of the session store for the duration of one request.
`notConfigured`: `FastAPICache.get_backend().redis` raises
`AttributeError` (no Redis backend), which the handlers catch.
`ready sd`: the Redis client works and holds `sd` for this session.
`down`: the backend is configured (the `.redis` attribute exists) but the
server is unreachable, so every `mget`/`set` awaited on the client raises
a connection error — which `except AttributeError:` does not catch. -/
inductive StoreState where
  | notConfigured
  | ready (sd : StoreData)
  | down
deriving DecidableEq, Repr

/-- How a handler terminates abnormally: a deliberate `HTTPException`
with a status code, or an uncaught exception propagating out of the
handler to the framework (surfaced to the caller as a server error). -/
inductive HandlerError where
  | http (status : Nat)
  | unhandled
deriving DecidableEq, Repr

/-- Python truthiness of `request.session_id` (`None` and the empty
string are falsy). -/
def sidTruthy : Option String → Bool
  | none => false
  | some s => !(s.data.isEmpty)

/-- The environment of one `/ask` request: the cache flag checked first,
the session store state, and the outcomes of each external call made by
the handler. -/
structure AskEnv where
  cacheReady : Bool
  store : StoreState
  retrieval : Except Unit (List ℚ)
  docs : List Doc
  tavilyOk : Bool
  tres : TavilyResult
  llmOut : Except Unit String
  respostaAgente : Except Unit String
  genericResp : String → List Turn → String

/-- Resolution of profile and history at the top of `ask_question`.  With
a ready store and a truthy session id the stored values win (with the
request profile, then `"interesse_geral"`, as fallback); the
`AttributeError` of an unconfigured backend is caught and degrades to the
request profile and an empty history.  With a configured-but-down store
and a truthy session id, `await redis_client.mget(...)` raises a
connection error that `except AttributeError:` does not catch, so the
exception propagates; with a falsy session id no Redis call is made at
all and the request proceeds statelessly. -/
def resolveSession : StoreState → QueryRequest → Except HandlerError (Perfil × List Turn)
  | StoreState.notConfigured, req => Except.ok (req.perfil.getD Perfil.interesse_geral, [])
  | StoreState.ready sd, req =>
    if sidTruthy req.session_id then
      Except.ok ((match sd.stored_perfil with
                  | some p => p
                  | none => req.perfil.getD Perfil.interesse_geral),
                 sd.stored_history.getD [])
    else Except.ok (req.perfil.getD Perfil.interesse_geral, [])
  | StoreState.down, req =>
    if sidTruthy req.session_id then Except.error HandlerError.unhandled
    else Except.ok (req.perfil.getD Perfil.interesse_geral, [])

/-- `MAX_HISTORY_LEN` from `src/backend/api/endpoints.py`. -/
def MAX_HISTORY_LEN : Nat := 20

/-- The truncation applied after appending the two new turns:
`chat_history[-MAX_HISTORY_LEN:]` when the list exceeds the cap. -/
def truncateHistory (h : List Turn) : List Turn :=
  if h.length > MAX_HISTORY_LEN then h.drop (h.length - MAX_HISTORY_LEN) else h

/-- Observable outcome of one `/ask` request: the HTTP response, the
profile and history the handler resolved and used, and the history written
back to the store (`none` when persistence was skipped). -/
structure AskOutcome where
  response : QueryResponse
  perfil_used : Perfil
  history_used : List Turn
  persisted : Option (List Turn)
deriving Repr

/-- `ask_question` from `src/backend/api/endpoints.py`.  `Except.error`
is a handler failure: the deliberate 503 guard when the RAG cache is not
initialized, or an uncaught store exception propagating out of the
handler (see `resolveSession`).  The grounded path runs `coordenar` and
then the specialist answer `responder_por_agente` (outcome
`env.respostaAgente`); if either raises, the `except` branch substitutes
the generic Gemini answer with the distinct fallback tag — note that
`source_documents` keeps whatever was assigned before the exception (the
coordination's `fontes` when only the specialist call failed).
Persistence (`redis_client.set`, guarded by `except AttributeError:`) is
reached only when a session id is present; the store's state is fixed for
the request, so a down store has already raised at the `mget` in that
case, and with no session id the handler performs no Redis call at all —
hence persistence itself never raises here, it either writes (ready
store) or is skipped (`AttributeError` caught, or no session id). -/
def ask_question (env : AskEnv) (req : QueryRequest) : Except HandlerError AskOutcome :=
  if env.cacheReady = false then Except.error (HandlerError.http 503)
  else
    match resolveSession env.store req with
    | Except.error e => Except.error e
    | Except.ok ph =>
      let chat_history := ph.2
      let usa_db := should_use_database env.retrieval req.query
      let rfa : String × String × String × List Fonte :=
        if usa_db = false then
          (env.genericResp req.query chat_history,
           "Fluxo genérico (sem RAG): pergunta não exigia consulta ao banco.",
           "agente_generico_gemini",
           [])
        else
          match coordenar env.docs ph.1 env.tavilyOk env.tres env.llmOut req.query with
          | Except.error _ =>
            (env.genericResp req.query chat_history,
             "Falha no fluxo RAG; resposta genérica fornecida.",
             "fallback_generico_gemini",
             [])
          | Except.ok diag =>
            match env.respostaAgente with
            | Except.ok resposta => (resposta, diag.analise, diag.agente_escolhido, diag.fontes)
            | Except.error _ =>
              (env.genericResp req.query chat_history,
               "Falha no fluxo RAG; resposta genérica fornecida.",
               "fallback_generico_gemini",
               diag.fontes)
      let newHist :=
        if sidTruthy req.session_id then
          truncateHistory (chat_history ++
            [{ role := "user", content := req.query },
             { role := "assistant", content := rfa.1 }])
        else chat_history
      let persisted : Option (List Turn) :=
        match env.store with
        | StoreState.ready _ => if sidTruthy req.session_id then some newHist else none
        | _ => none
      Except.ok
        { response := { answer := rfa.1, fonte_resumo := rfa.2.1,
                        agente_acionado := rfa.2.2.1, source_documents := rfa.2.2.2 },
          perfil_used := ph.1,
          history_used := chat_history,
          persisted := persisted }

/-- Result of a successful `/start` call: the echoed session id and
profile, and whether the profile was actually persisted to the store. -/
structure StartResult where
  session_id : String
  perfil : String
  persisted : Bool
deriving DecidableEq, Repr

/-- The allowed profile strings checked by `start_session`. -/
def validPerfil (p : String) : Bool :=
  p == "cidadao" || p == "servidor_publico" || p == "interesse_geral"

/-- `start_session` from `src/backend/api/endpoints.py`: reject an
invalid profile with HTTP 400; otherwise attempt to persist the profile.
With a ready store the `set` succeeds; the `AttributeError` of an
unconfigured backend is caught and persistence skipped (the handler still
answers ok); with a configured-but-down store, `await redis_client.set`
raises a connection error that `except AttributeError:` does not catch,
and the exception propagates out of the handler. -/
def start_session (store : StoreState) (req : StartRequest) : Except HandlerError StartResult :=
  if validPerfil req.perfil = false then Except.error (HandlerError.http 400)
  else
    match store with
    | StoreState.ready _ =>
      Except.ok { session_id := req.session_id, perfil := req.perfil, persisted := true }
    | StoreState.notConfigured =>
      Except.ok { session_id := req.session_id, perfil := req.perfil, persisted := false }
    | StoreState.down => Except.error HandlerError.unhandled

/-- A concrete request environment with no session store configured. -/
def envNoStore : AskEnv :=
  { cacheReady := true, store := StoreState.notConfigured, retrieval := Except.error (),
    docs := [], tavilyOk := false, tres := TavilyResult.rfail,
    llmOut := Except.error (), respostaAgente := Except.error (),
    genericResp := fun _ _ => "resposta generica" }

/-- A concrete request environment whose configured store is unreachable
at request time. -/
def envStoreDown : AskEnv :=
  { cacheReady := true, store := StoreState.down, retrieval := Except.error (),
    docs := [], tavilyOk := false, tres := TavilyResult.rfail,
    llmOut := Except.error (), respostaAgente := Except.error (),
    genericResp := fun _ _ => "resposta generica" }

/-- A concrete request environment whose store holds a 20-turn history
for the session. -/
def envFullHistory : AskEnv :=
  { cacheReady := true, store := StoreState.ready
      { stored_perfil := none,
        stored_history := some (List.replicate 20 { role := "user", content := "x" }) },
    retrieval := Except.error (),
    docs := [], tavilyOk := false, tres := TavilyResult.rfail,
    llmOut := Except.error (), respostaAgente := Except.error (),
    genericResp := fun _ _ => "resposta generica" }

/-- A concrete request environment in which the grounding decision is
positive (domain keyword, retrieval down) and the routing language-model
call raises. -/
def envGroundedFail : AskEnv :=
  { cacheReady := true, store := StoreState.notConfigured, retrieval := Except.error (),
    docs := [], tavilyOk := false, tres := TavilyResult.rfail,
    llmOut := Except.error (), respostaAgente := Except.ok "resposta do agente",
    genericResp := fun _ _ => "resposta generica" }

/-- Lowercasing preserves whitespace-ness: `pyLowerChar` maps no character
into or out of the whitespace class. -/
theorem isSpaceC_pyLowerChar (c : Char) : isSpaceC (pyLowerChar c) = isSpaceC c := by
  unfold pyLowerChar
  split <;> rfl

/-- `dropWhile` commutes with `map` when the predicate is invariant under
the mapped function. -/
theorem dropWhile_map_inv (f : Char → Char) (p : Char → Bool)
    (hp : ∀ c, p (f c) = p c) (l : List Char) :
    (l.map f).dropWhile p = (l.dropWhile p).map f := by
  induction l with
  | nil => rfl
  | cons c t ih =>
    simp only [List.map_cons, List.dropWhile_cons, hp c]
    by_cases h : p c = true
    · simp [h, ih]
    · simp [h]

/-- `dropWhile` is idempotent. -/
theorem dropWhile_dropWhile (p : Char → Bool) (l : List Char) :
    (l.dropWhile p).dropWhile p = l.dropWhile p := by
  induction l with
  | nil => rfl
  | cons c t ih =>
    by_cases h : p c = true
    · simp [List.dropWhile_cons, h, ih]
    · simp [List.dropWhile_cons, h]

/-- `dropWhile` can only shorten a list. -/
theorem length_dropWhile_le_len (p : Char → Bool) (l : List Char) :
    (l.dropWhile p).length ≤ l.length := by
  induction l with
  | nil => simp
  | cons c t ih =>
    rw [List.dropWhile_cons]
    by_cases h : p c = true
    · simp only [h, if_true, List.length_cons]
      omega
    · simp [h]

/-- Lowercasing commutes with stripping. -/
theorem lowerL_stripL (l : List Char) : lowerL (stripL l) = stripL (lowerL l) := by
  unfold stripL rdropC ldrop lowerL
  rw [List.map_reverse, ← dropWhile_map_inv pyLowerChar isSpaceC isSpaceC_pyLowerChar,
      List.map_reverse, ← dropWhile_map_inv pyLowerChar isSpaceC isSpaceC_pyLowerChar]

/-- Dropping trailing whitespace twice is the same as dropping it once. -/
theorem rdropC_rdropC (l : List Char) : rdropC (rdropC l) = rdropC l := by
  unfold rdropC
  rw [List.reverse_reverse, dropWhile_dropWhile]

/-- A list with no leading whitespace still has none after its trailing
whitespace is dropped. -/
theorem ldrop_rdropC (l : List Char) (h : ldrop l = l) : ldrop (rdropC l) = rdropC l := by
  cases l with
  | nil => rfl
  | cons c t =>
    have hc : isSpaceC c = false := by
      by_contra hc
      rw [Bool.not_eq_false] at hc
      unfold ldrop at h
      rw [List.dropWhile_cons, if_pos hc] at h
      have := length_dropWhile_le_len isSpaceC t
      rw [h] at this
      simp at this
    have hsuf : (List.dropWhile isSpaceC (c :: t).reverse) <:+ (c :: t).reverse :=
      List.dropWhile_suffix isSpaceC
    have hpre : rdropC (c :: t) <+: c :: t := by
      unfold rdropC
      rw [← List.reverse_reverse (c :: t)]
      exact (List.reverse_prefix).mpr (by rw [List.reverse_reverse]; exact hsuf)
    obtain ⟨s, hs⟩ := hpre
    unfold ldrop
    cases hr : rdropC (c :: t) with
    | nil => rfl
    | cons d t' =>
      rw [hr] at hs
      have hd : d = c := by
        cases hs
        rfl
      rw [List.dropWhile_cons, hd, if_neg (by rw [hc]; exact Bool.false_ne_true)]

/-- Stripping is idempotent. -/
theorem stripL_stripL (l : List Char) : stripL (stripL l) = stripL l := by
  unfold stripL
  rw [show ldrop (rdropC (ldrop l)) = rdropC (ldrop l) from
        ldrop_rdropC _ (dropWhile_dropWhile isSpaceC l),
      rdropC_rdropC]

/-- `is_small_talk` is invariant under pre-stripping its input (the
handler strips the query once before the classifier strips it again). -/
theorem is_small_talk_pyStrip (s : String) : is_small_talk (pyStrip s) = is_small_talk s := by
  unfold is_small_talk normQL pyStrip
  rw [show (String.mk (stripL s.data)).data = stripL s.data from rfl,
      lowerL_stripL, stripL_stripL]

/-- C7: `is_small_talk` returns true exactly when the lowercased, trimmed
query has at most 5 whitespace-separated tokens and matches at least one
of the fixed small-talk patterns (so it never returns true on longer
text); and whenever it returns true on a query, `should_use_database`
returns false on that query whatever the retrieval outcome is (the
retrieval service is never consulted). -/
theorem small_talk_gate_spec (query : String) (retrieval : Except Unit (List ℚ)) :
    (is_small_talk query = true ↔
      (countTokens (normQL query) ≤ 5 ∧
       SMALL_TALK_PATTERNS.any (fun pat => reSearchL pat (normQL query)) = true))
    ∧ (is_small_talk query = true → should_use_database retrieval query = false) := by
  constructor
  · unfold is_small_talk
    by_cases h : countTokens (normQL query) ≤ 5
    · simp [h]
    · simp [h]
  · intro h
    simp only [should_use_database, is_small_talk_pyStrip, h, if_true]

/-- Witness for C7 at the query `"olá, tudo bem?"` with a retrieval
outcome whose score 0 would pass the threshold: the small-talk gate still
returns false. -/
theorem small_talk_gate_spec_witness :
    is_small_talk "olá, tudo bem?" = true ∧
    should_use_database (Except.ok [(0 : ℚ)]) "olá, tudo bem?" = false :=
  ⟨by decide, (small_talk_gate_spec "olá, tudo bem?" (Except.ok [(0 : ℚ)])).2 (by decide)⟩

/-- C2 counterexample: the query `"iptu tudo bem"` contains the domain
keyword `"iptu"`, yet `should_use_database` returns false (with a perfect
retrieval score available), because the small-talk check precedes the
keyword check and `"tudo bem"` matches a small-talk pattern within 5
tokens. -/
theorem domain_kw_counterexample :
    has_domain_kw "iptu tudo bem" = true ∧
    should_use_database (Except.ok [(0 : ℚ)]) "iptu tudo bem" = false := by
  constructor
  · decide
  · decide

/-- C2 (amended): for every query that is not classified as small talk,
if the lowercased query contains a domain keyword then
`should_use_database` returns true, regardless of the retrieval outcome
(success with any scores, or failure). -/
theorem domain_kw_forces_db (query : String) (retrieval : Except Unit (List ℚ))
    (hst : is_small_talk (pyStrip query) = false)
    (hkw : has_domain_kw (pyStrip query) = true) :
    should_use_database retrieval query = true := by
  cases retrieval with
  | ok scored => simp [should_use_database, hst, hkw]
  | error e => simp [should_use_database, hst, hkw]

/-- Witness for C2-as-amended: a six-token domain query with a failing
retrieval service still consults the knowledge base. -/
theorem domain_kw_forces_db_witness :
    should_use_database (Except.error ()) "o que é iptu no município" = true :=
  domain_kw_forces_db "o que é iptu no município" (Except.error ()) (by decide) (by decide)

/-- C3: for every query not classified as small talk, when the retrieval
call raises (any exception), `should_use_database` returns exactly the
domain-keyword boolean; no exception propagates (the model function is
total and the `except` branch yields a plain boolean). -/
theorem retrieval_failure_degrades (query : String)
    (hst : is_small_talk (pyStrip query) = false) :
    should_use_database (Except.error ()) query = has_domain_kw (pyStrip query) := by
  simp [should_use_database, hst]

/-- Witness for C3 at a keyword-free eight-token query. -/
theorem retrieval_failure_degrades_witness :
    should_use_database (Except.error ()) "qual a capital da frança e do peru"
      = has_domain_kw (pyStrip "qual a capital da frança e do peru") :=
  retrieval_failure_degrades "qual a capital da frança e do peru" (by decide)

/-- C8: for every query not classified as small talk, when the retrieval
call succeeds with any list of scores, `should_use_database` returns the
domain-keyword boolean OR-ed with the comparison of the minimum returned
score (default 1) against the threshold 0.35. -/
theorem retrieval_success_formula (query : String) (scores : List ℚ)
    (hst : is_small_talk (pyStrip query) = false) :
    should_use_database (Except.ok scores) query =
      (has_domain_kw (pyStrip query) ||
       decide (listMin scores 1 ≤ FAISS_SCORE_THRESHOLD)) := by
  simp [should_use_database, hst]

/-- Witness for C8 at the spec's example: scores `[0.5, 0.6, 0.7]` and no
domain keyword give best score 0.5 > 0.35, so the database is not used. -/
theorem retrieval_success_formula_witness :
    should_use_database (Except.ok [mkRat 1 2, mkRat 3 5, mkRat 7 10])
      "como posso melhorar a redação de um texto longo" = false :=
  (retrieval_success_formula "como posso melhorar a redação de um texto longo"
    [mkRat 1 2, mkRat 3 5, mkRat 7 10] (by decide)).trans (by decide)

/-- C10: for every query not classified as small talk, a successful
retrieval that returns an empty score list uses the default best score 1,
which exceeds the 0.35 threshold, so the decision is exactly the
domain-keyword boolean — the same result as the failure fallback, and no
error from an empty minimum. -/
theorem empty_retrieval_like_failure (query : String)
    (hst : is_small_talk (pyStrip query) = false) :
    should_use_database (Except.ok []) query = has_domain_kw (pyStrip query)
    ∧ should_use_database (Except.ok []) query = should_use_database (Except.error ()) query
    ∧ listMin [] 1 = 1
    ∧ decide ((1 : ℚ) ≤ FAISS_SCORE_THRESHOLD) = false := by
  have hth : decide ((1 : ℚ) ≤ FAISS_SCORE_THRESHOLD) = false := by decide
  refine ⟨?_, ?_, rfl, hth⟩
  · simp [should_use_database, hst, listMin, hth]
  · simp [should_use_database, hst, listMin, hth]

/-- Witness for C10 at a keyword-free seven-token query. -/
theorem empty_retrieval_like_failure_witness :
    should_use_database (Except.ok []) "onde fica a praça central da cidade"
      = has_domain_kw (pyStrip "onde fica a praça central da cidade") :=
  (empty_retrieval_like_failure "onde fica a praça central da cidade" (by decide)).1

/-- The join of a list starting with `p` begins with the characters of
`p`. -/
theorem joinSep_cons_data (sep p : String) (rest : List String) :
    ∃ t, (joinSep sep (p :: rest)).data = p.data ++ t := by
  cases rest with
  | nil => exact ⟨[], by simp [joinSep]⟩
  | cons q l =>
    exact ⟨sep.data ++ (joinSep sep (q :: l)).data, by simp [joinSep, List.append_assoc]⟩

/-- Joining a list whose head is a nonempty string yields a nonempty
string. -/
theorem joinSep_cons_ne_empty (sep p : String) (rest : List String) (hp : p ≠ "") :
    joinSep sep (p :: rest) ≠ "" := by
  obtain ⟨t, ht⟩ := joinSep_cons_data sep p rest
  intro hcontra
  apply hp
  have h2 : p.data ++ t = ([] : List Char) := by
    rw [← ht]
    exact congrArg String.data hcontra
  exact String.ext (List.append_eq_nil.mp h2).1

/-- Appending to a string with a nonempty character list yields a
nonempty string. -/
theorem append_left_ne_empty (a b : String) (ha : a.data ≠ []) : a ++ b ≠ "" := by
  intro h
  apply ha
  have h2 : a.data ++ b.data = ([] : List Char) := congrArg String.data h
  exact (List.append_eq_nil.mp h2).1

/-- C4 counterexample: a single retrieved passage with empty
`page_content` (and no web segment) makes the bundle text the empty
string, not the sentinel — the sentinel is produced only when the list of
segments is empty, and joining the one-element list `[""]` gives `""`. -/
theorem contexto_empty_counterexample :
    (montar_contexto_rag [{ page_content := "", metadata := "m" }]
      Perfil.cidadao false TavilyResult.rfail).1 = "" := by decide

/-- C4 (amended): if every collected passage is nonempty the bundle text
is nonempty, and when no evidence segments are collected at all (no
documents, and no web segment because the profile/web-availability gate is
off or the web call failed) the bundle text is the explicit sentinel
`"Nenhum contexto encontrado."` — never the empty string. -/
theorem contexto_sentinel (docs : List Doc) (perfil : Perfil) (tavilyOk : Bool)
    (tres : TavilyResult)
    (hne : ∀ d ∈ docs, d.page_content ≠ "") :
    (montar_contexto_rag docs perfil tavilyOk tres).1 ≠ ""
    ∧ (docs = [] →
       ((perfil = Perfil.interesse_geral ∧ tavilyOk = true) → tres = TavilyResult.rfail) →
       (montar_contexto_rag docs perfil tavilyOk tres).1 = "Nenhum contexto encontrado.") := by
  constructor
  · cases docs with
    | cons d ds =>
      have hd : d.page_content ≠ "" := hne d (by simp)
      simp only [montar_contexto_rag, List.map_cons, List.cons_append, List.isEmpty_cons,
                 Bool.false_eq_true, if_false]
      exact joinSep_cons_ne_empty _ _ _ hd
    | nil =>
      by_cases hcase : perfil = Perfil.interesse_geral ∧ tavilyOk = true
      · cases tres with
        | rstr s =>
          simp only [montar_contexto_rag, List.map_nil, List.nil_append, hcase, if_true,
                     List.isEmpty_cons, Bool.false_eq_true, if_false]
          exact joinSep_cons_ne_empty _ _ _ (append_left_ne_empty _ _ (by decide))
        | rlist rs =>
          simp only [montar_contexto_rag, List.map_nil, List.nil_append, hcase, if_true,
                     List.isEmpty_cons, Bool.false_eq_true, if_false]
          exact joinSep_cons_ne_empty _ _ _ (append_left_ne_empty _ _ (by decide))
        | rfail =>
          simp only [montar_contexto_rag, List.map_nil, List.nil_append, hcase, if_true,
                     List.isEmpty_nil, if_true]
          decide
      · simp only [montar_contexto_rag, List.map_nil, List.nil_append, hcase, if_false,
                   List.isEmpty_nil, if_true]
        decide
  · intro hd hw
    subst hd
    by_cases hcase : perfil = Perfil.interesse_geral ∧ tavilyOk = true
    · have htres := hw hcase
      subst htres
      simp [montar_contexto_rag, hcase]
    · simp [montar_contexto_rag, hcase]

/-- Witness for C4-as-amended: with no documents, web search off, and a
failed web call the bundle text is the sentinel and in particular not
empty. -/
theorem contexto_sentinel_witness :
    (montar_contexto_rag [] Perfil.cidadao false TavilyResult.rfail).1
      = "Nenhum contexto encontrado."
    ∧ (montar_contexto_rag [] Perfil.cidadao false TavilyResult.rfail).1 ≠ "" := by
  have h := contexto_sentinel [] Perfil.cidadao false TavilyResult.rfail (by simp)
  exact ⟨h.2 rfl (fun _ => rfl), h.1⟩

/-- `choose_agent` always lands in one of exactly the three specialist
roles. -/
theorem choose_agent_total (a q : String) :
    choose_agent a q = "1_juridico" ∨ choose_agent a q = "2_operacional" ∨
    choose_agent a q = "3_dados_sistemas" := by
  simp only [choose_agent, queryKwFallback]
  split
  · exact Or.inl rfl
  · split
    · exact Or.inr (Or.inr rfl)
    · split
      · exact Or.inr (Or.inl rfl)
      · split
        · exact Or.inl rfl
        · split
          · exact Or.inr (Or.inr rfl)
          · exact Or.inr (Or.inl rfl)

/-- When the model output carries no role signal, `choose_agent` is the
query-keyword fallback. -/
theorem choose_agent_fallback (a q : String)
    (h1 : sinalJuridico (pyLower a) = false) (h2 : sinalDados (pyLower a) = false)
    (h3 : sinalOperacional (pyLower a) = false) :
    choose_agent a q = queryKwFallback q := by
  simp [choose_agent, h1, h2, h3]

/-- C1 counterexample: when the language-model call raises (model
unavailable), `coordenar` propagates the exception instead of returning a
routing decision — no role is resolved by the router in that case (the
`/ask` handler then answers without any specialist role). -/
theorem coordenar_llm_raise_counterexample :
    coordenar [] Perfil.cidadao false TavilyResult.rfail (Except.error ())
      "Qual o prazo para regularização fundiária conforme a Lei X?"
      = Except.error () := rfl

/-- C1 (amended): whenever the language model returns any diagnosis text,
however unstructured, `coordenar` returns a routing decision whose role is
one of exactly the three roles; if the diagnosis carries no recognizable
role tag or synonym, the role is decided by the keyword scan of the
original query, which picks the legal role on statute vocabulary and
defaults to the operational role when nothing matches.  (If the
language-model call itself raises, `coordenar` propagates the exception —
see the counterexample.) -/
theorem coordenar_role_total (docs : List Doc) (perfil : Perfil) (tavilyOk : Bool)
    (tres : TavilyResult) (analise query : String) :
    ∃ c, coordenar docs perfil tavilyOk tres (Except.ok analise) query = Except.ok c
      ∧ (c.agente_escolhido = "1_juridico" ∨ c.agente_escolhido = "2_operacional" ∨
         c.agente_escolhido = "3_dados_sistemas")
      ∧ (sinalJuridico (pyLower analise) = false → sinalDados (pyLower analise) = false →
         sinalOperacional (pyLower analise) = false →
         c.agente_escolhido = queryKwFallback query)
      ∧ (COORD_LEGAL_KWS.any (fun w => subStr w (pyLower query)) = true →
         queryKwFallback query = "1_juridico")
      ∧ (COORD_LEGAL_KWS.any (fun w => subStr w (pyLower query)) = false →
         COORD_DADOS_KWS.any (fun w => subStr w (pyLower query)) = false →
         queryKwFallback query = "2_operacional") := by
  refine ⟨_, rfl, choose_agent_total analise query, ?_, ?_, ?_⟩
  · intro h1 h2 h3
    exact choose_agent_fallback analise query h1 h2 h3
  · intro h
    simp [queryKwFallback, h]
  · intro h1 h2
    simp [queryKwFallback, h1, h2]

/-- Witness for C1-as-amended at the spec's example: an unstructured
diagnosis plus the statute query resolve to the legal role through the
keyword fallback. -/
theorem coordenar_role_total_witness :
    ∃ c, coordenar [] Perfil.cidadao false TavilyResult.rfail
        (Except.ok "resposta sem estrutura")
        "Qual o prazo para regularização fundiária conforme a Lei X?" = Except.ok c
      ∧ c.agente_escolhido = "1_juridico" := by
  obtain ⟨c, hc, _, hfb, hleg, _⟩ := coordenar_role_total [] Perfil.cidadao false
    TavilyResult.rfail "resposta sem estrutura"
    "Qual o prazo para regularização fundiária conforme a Lei X?"
  refine ⟨c, hc, ?_⟩
  rw [hfb (by decide) (by decide) (by decide)]
  exact hleg (by decide)

/-- When the session store is simply not configured (the `AttributeError`
path, the only store failure the handlers catch), both handlers do
degrade to stateless no-ops: the `/ask` handler resolves the profile from
the request (or the default), uses an empty history, skips persistence,
and answers ok; the `/start` handler (with a valid profile) answers ok
with persistence skipped. -/
theorem store_not_configured_noop (env : AskEnv) (req : QueryRequest) (sreq : StartRequest)
    (hstore : env.store = StoreState.notConfigured) (hcache : env.cacheReady = true)
    (hvalid : validPerfil sreq.perfil = true) :
    (∃ r, ask_question env req = Except.ok r
       ∧ r.perfil_used = req.perfil.getD Perfil.interesse_geral
       ∧ r.history_used = []
       ∧ r.persisted = none)
    ∧ start_session StoreState.notConfigured sreq =
        Except.ok { session_id := sreq.session_id, perfil := sreq.perfil,
                    persisted := false } := by
  constructor
  · simp only [ask_question, hstore, hcache, resolveSession, Bool.true_eq_false, if_false]
    exact ⟨_, rfl, rfl, rfl, rfl⟩
  · simp [start_session, hvalid]

/-- C5: the claim fails on the code for the configured-but-unreachable
store.  The handlers catch only `AttributeError` (the unconfigured
backend); when the store is configured but the Redis server is
unreachable at request time, the connection error raised by `await
redis_client.mget(...)` in `/ask` (with a session id) and by `await
redis_client.set(...)` in `/start` is not caught and propagates out of
the handler to the caller, instead of degrading to a stateless no-op. -/
theorem store_down_raises :
    ask_question envStoreDown { session_id := some "s1", query := "bom dia", perfil := none }
      = Except.error HandlerError.unhandled
    ∧ start_session StoreState.down { session_id := "s1", perfil := "cidadao" }
      = Except.error HandlerError.unhandled := by
  constructor
  · rfl
  · rfl

/-- `truncateHistory` is uniformly the drop that keeps the most recent
`MAX_HISTORY_LEN` turns. -/
theorem truncateHistory_drop (l : List Turn) :
    truncateHistory l = l.drop (l.length - MAX_HISTORY_LEN) := by
  unfold truncateHistory
  split
  · rfl
  · rename_i hnot
    rw [Nat.sub_eq_zero_of_le (Nat.le_of_not_lt hnot), List.drop_zero]

/-- Appending two turns to a full history and dropping down to the cap
removes exactly the two oldest turns. -/
theorem drop_two_of_full (h : List Turn) (u a : Turn)
    (hm : h.length = MAX_HISTORY_LEN) :
    (h ++ [u, a]).drop ((h ++ [u, a]).length - MAX_HISTORY_LEN) = h.drop 2 ++ [u, a] := by
  have hlen2 : (h ++ [u, a]).length - MAX_HISTORY_LEN = 2 := by
    simp only [List.length_append, List.length_cons, List.length_nil]
    omega
  rw [hlen2, List.drop_append_of_le_length (by rw [hm]; decide)]

/-- C6: starting from a stored history of at most 20 turns, the `/ask`
handler persists the history extended with the user turn and the
assistant turn, truncated to at most 20 turns: the persisted history is
exactly the most recent turns (a terminal segment of the appended list),
and appending to a full 20-turn history drops exactly the two oldest
turns.  Truncation is a total list operation; no error is possible. -/
theorem history_truncation (env : AskEnv) (req : QueryRequest) (sd : StoreData)
    (h : List Turn)
    (hcache : env.cacheReady = true) (hstore : env.store = StoreState.ready sd)
    (hhist : sd.stored_history = some h) (hsid : sidTruthy req.session_id = true)
    (hlen : h.length ≤ MAX_HISTORY_LEN) :
    ∃ r, ask_question env req = Except.ok r ∧
      ∃ ph, r.persisted = some ph
        ∧ ph.length ≤ MAX_HISTORY_LEN
        ∧ ph = (h ++ [({ role := "user", content := req.query } : Turn),
                      ({ role := "assistant", content := r.response.answer } : Turn)]).drop
               (h.length + 2 - MAX_HISTORY_LEN)
        ∧ (h.length = MAX_HISTORY_LEN →
           ph = h.drop 2 ++ [({ role := "user", content := req.query } : Turn),
                             ({ role := "assistant", content := r.response.answer } : Turn)]) := by
  simp only [ask_question, hstore, hcache, resolveSession, hhist, hsid, if_true,
             Option.getD_some, Bool.true_eq_false, if_false]
  refine ⟨_, rfl, _, rfl, ?_, ?_, ?_⟩
  · rw [truncateHistory_drop, List.length_drop]
    omega
  · rw [truncateHistory_drop]
    congr 1
    simp only [List.length_append, List.length_cons, List.length_nil]
  · intro hm
    rw [truncateHistory_drop]
    exact drop_two_of_full h _ _ hm

/-- Witness for C6 with a concrete 20-turn stored history. -/
theorem history_truncation_witness :
    ∃ r, ask_question envFullHistory
        { session_id := some "s1", query := "bom dia", perfil := none } = Except.ok r ∧
      ∃ ph, r.persisted = some ph ∧ ph.length ≤ MAX_HISTORY_LEN := by
  obtain ⟨r, hr, ph', hph, hl, _, _⟩ := history_truncation envFullHistory
    { session_id := some "s1", query := "bom dia", perfil := none }
    { stored_perfil := none,
      stored_history := some (List.replicate 20 { role := "user", content := "x" }) }
    (List.replicate 20 { role := "user", content := "x" })
    rfl rfl rfl (by decide) (by decide)
  exact ⟨r, hr, ph', hph, hl⟩

/-- C9: whenever the session resolution succeeded, the grounded path is
taken, and either the routing language-model call or the specialist
language-model call raises, the `/ask` handler catches the exception and
answers with the ungrounded generic response for the same query and
history, tagged with the distinct fallback agent tag and the distinct
fallback summary (both different from the intentional ungrounded path's
labels), and no exception reaches the caller. -/
theorem grounded_failure_fallback (env : AskEnv) (req : QueryRequest)
    (ph : Perfil × List Turn)
    (hcache : env.cacheReady = true)
    (hres : resolveSession env.store req = Except.ok ph)
    (hdb : should_use_database env.retrieval req.query = true)
    (hfail : env.llmOut = Except.error () ∨ env.respostaAgente = Except.error ()) :
    ∃ r, ask_question env req = Except.ok r
      ∧ r.response.answer = env.genericResp req.query r.history_used
      ∧ r.response.agente_acionado = "fallback_generico_gemini"
      ∧ r.response.fonte_resumo = "Falha no fluxo RAG; resposta genérica fornecida."
      ∧ r.response.agente_acionado ≠ "agente_generico_gemini"
      ∧ r.response.fonte_resumo ≠
          "Fluxo genérico (sem RAG): pergunta não exigia consulta ao banco." := by
  cases hl : env.llmOut with
  | error e =>
    simp only [ask_question, hcache, hres, hdb, coordenar, hl, Bool.true_eq_false, if_false]
    refine ⟨_, rfl, rfl, rfl, rfl, ?_, ?_⟩
    · exact (by decide : ("fallback_generico_gemini" : String) ≠ "agente_generico_gemini")
    · exact (by decide : ("Falha no fluxo RAG; resposta genérica fornecida." : String) ≠
        "Fluxo genérico (sem RAG): pergunta não exigia consulta ao banco.")
  | ok a =>
    have hra : env.respostaAgente = Except.error () := by
      cases hfail with
      | inl hcontra => rw [hl] at hcontra; exact absurd hcontra (by simp)
      | inr hok => exact hok
    simp only [ask_question, hcache, hres, hdb, coordenar, hl, hra, Bool.true_eq_false,
               if_false]
    refine ⟨_, rfl, rfl, rfl, rfl, ?_, ?_⟩
    · exact (by decide : ("fallback_generico_gemini" : String) ≠ "agente_generico_gemini")
    · exact (by decide : ("Falha no fluxo RAG; resposta genérica fornecida." : String) ≠
        "Fluxo genérico (sem RAG): pergunta não exigia consulta ao banco.")

/-- Witness for C9 with a concrete environment whose routing
language-model call raises on a grounded (domain-keyword) query. -/
theorem grounded_failure_fallback_witness :
    ∃ r, ask_question envGroundedFail
        { session_id := none, query := "qual o valor do iptu em 2024", perfil := none }
        = Except.ok r
      ∧ r.response.agente_acionado = "fallback_generico_gemini"
      ∧ r.response.answer = "resposta generica" := by
  obtain ⟨r, hr, hans, hag, _, _, _⟩ := grounded_failure_fallback envGroundedFail
    { session_id := none, query := "qual o valor do iptu em 2024", perfil := none }
    (Perfil.interesse_geral, []) rfl rfl (by decide) (Or.inl rfl)
  exact ⟨r, hr, hag, hans.trans rfl⟩
